import Mathlib

/-!
Shallow embedding of the tagged arena allocator
(src/tagged_arena_allocator.cpp).

Machine integers of type size_t are modelled as Nat reduced modulo
2^64 at every arithmetic step where the C++ performs size_t
arithmetic.  Raw pointers into a block are modelled as byte indices
into the block's buffer.  The heap of BlockNode objects produced by
new / delete is modelled as an association list from abstract
addresses (Nat, handed out by an ever-increasing counter) to node
values; dereferencing an address that is not live in the heap, or
indexing the per-tag array out of bounds, is undefined behavior and
is modelled by returning none at the outermost Option layer.
-/

/-- Width of size_t: all size_t arithmetic in the source is modulo this. -/
def W : Nat := 2 ^ 64

/-- Numeric value of the scoped enum sentinel ArenaTag::COUNT: the enum is
SHARED = 0, GAME = 1, RENDERING = 2, GPU = 3, COUNT = 4.  Tags are modelled
by their uint8_t numeric value. -/
def ArenaTagCOUNT : Nat := 4

/-- Source: static constexpr size_t BLOCK_SIZE = 8 * 1024 * 1024 * 2. -/
def BLOCK_SIZE : Nat := 8 * 1024 * 1024 * 2

/-- An ArenaBlock: the data buffer is identified by its content-free
identity here (buffer bytes are never read by the allocator itself), so
the observable state is the write offset.  Pointers returned by alloc are
modelled as byte indices into the buffer. -/
structure ArenaBlock where
  offset : Nat
deriving DecidableEq

/-- The ArenaBlock constructor: offset starts at 0 (buffer freshly new-ed). -/
def ArenaBlock.new : ArenaBlock := ⟨0⟩

/-- Source: ArenaBlock::alloc(size, alignment).  The guard, the two offset
increments and the returned pointer all use size_t arithmetic (mod 2^64).
Returns the pointer (a byte index) or none, together with the block state
after the call. -/
def ArenaBlock.alloc (b : ArenaBlock) (size alignment : Nat) :
    Option Nat × ArenaBlock :=
  if (size + alignment + b.offset) % W > BLOCK_SIZE then (none, b)
  else
    (some ((b.offset + alignment) % W), ⟨((b.offset + alignment) % W + size) % W⟩)

/-- Source: struct BlockNode { ArenaBlock block; BlockNode* next; }.
next = none models a null pointer. -/
structure BlockNode where
  block : ArenaBlock
  next : Option Nat
deriving DecidableEq

/-- Dereference an address in the modelled heap of BlockNodes: first
matching entry, none when the address is not live (dangling pointer). -/
def hlookup : List (Nat × BlockNode) → Nat → Option BlockNode
  | [], _ => none
  | e :: rest, addr => if e.1 = addr then some e.2 else hlookup rest addr

/-- Write through a live address in the modelled heap (in-place mutation of
the node the pointer refers to). -/
def hupdate : List (Nat × BlockNode) → Nat → BlockNode → List (Nat × BlockNode)
  | [], _, _ => []
  | e :: rest, addr, node =>
    if e.1 = addr then (addr, node) :: rest else e :: hupdate rest addr node

/-- Model of delete: remove the node at the given address from the heap. -/
def hremove : List (Nat × BlockNode) → Nat → List (Nat × BlockNode)
  | [], _ => []
  | e :: rest, addr => if e.1 = addr then rest else e :: hremove rest addr

/-- The TaggedArena state: the heap of live BlockNodes, the counter handing
out fresh addresses for new, and the member array
BlockNode* blocks[static_cast of ArenaTag::COUNT - 1] as the list of the
addresses it holds. -/
structure TaggedArena where
  heap : List (Nat × BlockNode)
  nextAddr : Nat
  blocks : List Nat
deriving DecidableEq

/-- One constructor loop iteration per Nat.succ: blocks[i] =
new BlockNode { .block = ArenaBlock(), .next = nullptr }, run for
i = 0 .. ArenaTag::COUNT - 2 (the loop bound is COUNT - 1). -/
def initLoop : Nat → TaggedArena → TaggedArena
  | 0, a => a
  | Nat.succ k, a =>
    initLoop k
      { heap := (a.nextAddr, ⟨ArenaBlock.new, none⟩) :: a.heap,
        nextAddr := a.nextAddr + 1,
        blocks := a.blocks ++ [a.nextAddr] }

/-- Source: TaggedArena::TaggedArena(), seeding the per-tag array of
COUNT - 1 chain heads. -/
def TaggedArena.init : TaggedArena :=
  initLoop (ArenaTagCOUNT - 1) ⟨[], 0, []⟩

/-- Source: TaggedArena::alloc(tag, size, alignment).  Outer none is
undefined behavior: indexing blocks[] out of bounds, or dereferencing a
chain-head pointer whose node has been deleted.  Otherwise returns the
pointer-or-null result and the arena state after the call. -/
def TaggedArena.alloc (a : TaggedArena) (tag size alignment : Nat) :
    Option (Option Nat × TaggedArena) :=
  if size > BLOCK_SIZE ∨ tag = ArenaTagCOUNT then some (none, a)
  else
    match a.blocks.get? tag with
    | none => none
    | some addr =>
      match hlookup a.heap addr with
      | none => none
      | some node =>
        match node.block.alloc size alignment with
        | (some ptr, blk) =>
          some (some ptr, { a with heap := hupdate a.heap addr ⟨blk, node.next⟩ })
        | (none, _) =>
          some ((ArenaBlock.new.alloc size alignment).1,
            { heap :=
                (a.nextAddr, ⟨(ArenaBlock.new.alloc size alignment).2, some addr⟩)
                  :: a.heap,
              nextAddr := a.nextAddr + 1,
              blocks := a.blocks.set tag a.nextAddr })

/-- Source: the templated TaggedArena::alloc for a type T with
sizeofT = sizeof(T): calls the raw alloc, then unconditionally runs
placement-new on the returned pointer.  Placement-new on a null pointer is
undefined behavior, modelled as none. -/
def TaggedArena.allocTyped (a : TaggedArena) (tag sizeofT alignment : Nat) :
    Option (Nat × TaggedArena) :=
  match a.alloc tag sizeofT alignment with
  | none => none
  | some (none, _) => none
  | some (some ptr, a') => some (ptr, a')

/-- The while loop of TaggedArena::free: walk the chain from the given
pointer, deleting each node.  Fuel bounds the iteration count; every
successful lookup removes one heap entry, so heap length + 1 fuel can
never be exhausted before the walk ends or hits a dangling pointer
(outer none = undefined behavior: reading a deleted node). -/
def freeLoop : Nat → Option Nat → TaggedArena → Option TaggedArena
  | _, none, a => some a
  | Nat.succ fuel, some addr, a =>
    match hlookup a.heap addr with
    | none => none
    | some node => freeLoop fuel node.next { a with heap := hremove a.heap addr }
  | 0, some _, _ => none

/-- Source: TaggedArena::free(tag).  Note the source never writes
blocks[tag] back after the walk: the array keeps the address of the
deleted head node. -/
def TaggedArena.free (a : TaggedArena) (tag : Nat) : Option TaggedArena :=
  if tag = ArenaTagCOUNT then some a
  else
    match a.blocks.get? tag with
    | none => none
    | some addr => freeLoop (a.heap.length + 1) (some addr) a

/-- A caller loop issuing a list of (size, alignment) requests against one
block; some (results, final) when every request succeeded, where results
lists (pointer, size) for each allocation in order. -/
def runAllocs : ArenaBlock → List (Nat × Nat) → Option (List (Nat × Nat) × ArenaBlock)
  | b, [] => some ([], b)
  | b, r :: rest =>
    match b.alloc r.1 r.2 with
    | (some ptr, b') =>
      match runAllocs b' rest with
      | some (ps, bf) => some ((ptr, r.1) :: ps, bf)
      | none => none
    | (none, _) => none

/-- The byte ranges of two allocations, each given as (pointer, size), have
no byte in common. -/
def disjointRange (p q : Nat × Nat) : Prop :=
  p.1 + p.2 ≤ q.1 ∨ q.1 + q.2 ≤ p.1

/-- Helper: a successful get? implies the index is inside the list. -/
theorem get?_some_lt : ∀ (l : List Nat) (n v : Nat), l.get? n = some v → n < l.length
  | [], n, v, h => by simp [List.get?] at h
  | a :: l, 0, v, h => by simp
  | a :: l, n + 1, v, h => by
    have := get?_some_lt l n v (by simpa [List.get?] using h)
    simpa using Nat.succ_lt_succ this

/-- Helper: reading back the slot just written by set. -/
theorem get?_set_self : ∀ (l : List Nat) (n v : Nat), n < l.length → (l.set n v).get? n = some v
  | [], n, v, h => by simp at h
  | a :: l, 0, v, h => rfl
  | a :: l, n + 1, v, h => by
    have := get?_set_self l n v (by simpa using h)
    simpa [List.set, List.get?] using this

/-- Helper: what a successful ArenaBlock::alloc call did, assuming the
request cannot overflow size_t (size + alignment + BLOCK_SIZE < 2^64) and
the block's offset is within capacity. -/
theorem alloc_success_inv (b : ArenaBlock) (size align ptr : Nat) (b' : ArenaBlock)
    (hb : b.offset ≤ BLOCK_SIZE) (hov : size + align + BLOCK_SIZE < W)
    (h : b.alloc size align = (some ptr, b')) :
    ptr = b.offset + align ∧ b'.offset = b.offset + align + size ∧
      b'.offset ≤ BLOCK_SIZE := by
  unfold ArenaBlock.alloc at h
  have h1 : (size + align + b.offset) % W = size + align + b.offset :=
    Nat.mod_eq_of_lt (by omega)
  rw [h1] at h
  by_cases hc : size + align + b.offset > BLOCK_SIZE
  · rw [if_pos hc] at h
    exact absurd (congrArg Prod.fst h) (by simp)
  · rw [if_neg hc] at h
    have h2 : (b.offset + align) % W = b.offset + align := Nat.mod_eq_of_lt (by omega)
    rw [h2] at h
    have h3 : (b.offset + align + size) % W = b.offset + align + size :=
      Nat.mod_eq_of_lt (by omega)
    rw [h3] at h
    rcases b' with ⟨off2⟩
    rw [Prod.ext_iff] at h
    obtain ⟨hp, hs⟩ := h
    simp only [Option.some.injEq, ArenaBlock.mk.injEq] at hp hs
    exact ⟨hp.symm, hs.symm, by show off2 ≤ BLOCK_SIZE; omega⟩

/-- Claim C1 (code bug): the claim says the arena owns one chain per real
tag (SHARED, GAME, RENDERING, GPU) and alloc and free stay inside the
per-tag array for every valid non-sentinel tag, but the source sizes the
array and runs the constructor loop with COUNT - 1 = 3, so construction
seeds chains only for tags 0, 1, 2 and both alloc and free on the fourth
real tag GPU (= 3) index blocks[3] out of bounds (undefined behavior,
modelled as none). -/
theorem c1_chain_array_off_by_one :
    TaggedArena.init.blocks = [0, 1, 2] ∧
    TaggedArena.init.blocks.length = ArenaTagCOUNT - 1 ∧
    hlookup TaggedArena.init.heap 2 = some ⟨ArenaBlock.new, none⟩ ∧
    TaggedArena.init.alloc 3 1 1 = none ∧
    TaggedArena.init.free 3 = none := by decide

/-- Claim C2 (code bug): the claim says that after free(tag) the tag's
chain is empty and the next allocation transparently obtains a fresh first
block.  In the source, free(GAME = 1) deletes every chain node but never
resets blocks[1], which keeps the address of the deleted head; the next
alloc under that tag dereferences the dangling pointer (undefined
behavior, modelled as none) instead of behaving like a fresh arena. -/
theorem c2_free_leaves_dangling_head :
    ((TaggedArena.init.free 1).map (fun a => a.blocks) = some [0, 1, 2]) ∧
    ((TaggedArena.init.free 1).map (fun a => hlookup a.heap 1) = some none) ∧
    ((TaggedArena.init.free 1).bind (fun a => a.alloc 1 1 1) = none) := by decide

/-- Claim C3 (code bug): the claim says free is idempotent, but because
free never resets blocks[tag], a second free(GAME = 1) walks the chain
from the already-deleted head node: a use-after-free double delete
(undefined behavior, modelled as none), not a no-op. -/
theorem c3_double_free_undefined :
    (TaggedArena.init.free 1).bind (fun a => a.free 1) = none := by decide

/-- Claim C4 (counterexample): ArenaBlock::alloc computes its guard in
size_t arithmetic, so with size = 2^64 - 1, alignment = 1 on a fresh block
the sum wraps to 0 and the call succeeds (returning pointer index 1 and
wrapping the offset back to 0), although offset + alignment + size = 2^64
exceeds BLOCK_SIZE, where the claim requires failure with the offset
unchanged. -/
theorem c4_overflow_counterexample :
    ArenaBlock.new.alloc (2 ^ 64 - 1) 1 = (some 1, ⟨0⟩) ∧
    BLOCK_SIZE < ArenaBlock.new.offset + 1 + (2 ^ 64 - 1) := by decide

/-- Claim C4 (amended): provided size + alignment + offset does not
overflow size_t (sum < 2^64), ArenaBlock::alloc succeeds iff
offset + alignment + size ≤ BLOCK_SIZE before mutation; on success it
returns a pointer to the first byte after the alignment padding
(offset + alignment) and advances the offset by exactly alignment + size;
otherwise it returns the no-capacity result with the offset unchanged. -/
theorem c4_block_alloc_contract (b : ArenaBlock) (size align : Nat)
    (hov : size + align + b.offset < W) :
    (b.offset + align + size ≤ BLOCK_SIZE →
      b.alloc size align = (some (b.offset + align), ⟨b.offset + align + size⟩)) ∧
    (BLOCK_SIZE < b.offset + align + size → b.alloc size align = (none, b)) := by
  have h1 : (size + align + b.offset) % W = size + align + b.offset :=
    Nat.mod_eq_of_lt hov
  have h2 : (b.offset + align) % W = b.offset + align := Nat.mod_eq_of_lt (by omega)
  have h3 : (b.offset + align + size) % W = b.offset + align + size :=
    Nat.mod_eq_of_lt (by omega)
  constructor
  · intro hle
    unfold ArenaBlock.alloc
    rw [h1, if_neg (by omega), h2, h3]
  · intro hgt
    unfold ArenaBlock.alloc
    rw [h1, if_pos (by omega)]

/-- Claim C4 witness: a concrete in-bounds call, 5 bytes at alignment 8 on
a fresh block: pointer 8, offset advanced to 13. -/
theorem c4_block_alloc_contract_witness :
    ArenaBlock.alloc ⟨0⟩ 5 8 = (some 8, ⟨13⟩) := by
  have h := (c4_block_alloc_contract ⟨0⟩ 5 8 (by decide)).1 (by decide)
  simpa using h

/-- Claim C5 (code bug): the source initializer 8 * 1024 * 1024 * 2 yields
16 MiB, not the 2 MiB (2,097,152 bytes) announced by the code's own
comment, the README and the spec; the value does serve as both the block
capacity and the allocation ceiling, but it is not 2 MiB. -/
theorem c5_block_size_not_2MiB :
    BLOCK_SIZE = 16777216 ∧ BLOCK_SIZE ≠ 2097152 := by decide

/-- Claim C7: TaggedArena::alloc with size > BLOCK_SIZE fails immediately
for every tag, returning the no-capacity result with the arena state
untouched (no block is consulted). -/
theorem c7_capacity_ceiling (a : TaggedArena) (tag size align : Nat)
    (h : BLOCK_SIZE < size) :
    a.alloc tag size align = some (none, a) := by
  unfold TaggedArena.alloc
  rw [if_pos (Or.inl h)]

/-- Claim C7 witness: an oversized request on the freshly built arena under
tag RENDERING fails with the arena unchanged. -/
theorem c7_capacity_ceiling_witness :
    TaggedArena.init.alloc 2 (BLOCK_SIZE + 1) 7 = some (none, TaggedArena.init) :=
  c7_capacity_ceiling TaggedArena.init 2 (BLOCK_SIZE + 1) 7 (Nat.lt_succ_self BLOCK_SIZE)

/-- Claim C8 (counterexample): the claim covers the sentinel and any
out-of-range tag, but the source only guards tag == COUNT: tag 5 passes
the guard in both alloc and free and indexes blocks[5], out of bounds of
the length-3 array (undefined behavior, modelled as none), instead of a
clean failure result or no-op. -/
theorem c8_out_of_range_counterexample :
    TaggedArena.init.alloc 5 1 1 = none ∧ TaggedArena.init.free 5 = none := by decide

/-- Claim C8 (amended): for the sentinel tag exactly (COUNT = 4), alloc
rejects the request with a failure result and mutates no state, and free
is a no-op; tags strictly beyond the sentinel are not handled. -/
theorem c8_sentinel_rejected (a : TaggedArena) (size align : Nat) :
    a.alloc ArenaTagCOUNT size align = some (none, a) ∧
      a.free ArenaTagCOUNT = some a := by
  constructor
  · unfold TaggedArena.alloc
    rw [if_pos (Or.inr rfl)]
  · unfold TaggedArena.free
    rw [if_pos rfl]

/-- Claim C9 (code bug): the claim says a value is default-constructed only
when raw storage was obtained, but the typed alloc runs placement-new on
the raw result unconditionally: when the raw allocation fails (here: the
sentinel tag), it constructs at the null pointer (undefined behavior,
modelled as none) instead of returning the failure without constructing;
when raw allocation succeeds the typed call does return the pointer. -/
theorem c9_typed_alloc_null_placement_new :
    TaggedArena.init.allocTyped 4 1 1 = none ∧
      (TaggedArena.init.allocTyped 1 1 1).isSome = true := by decide

/-- Claim C10: for a tag whose array slot is in range and whose chain-head
node is live, when the head block cannot satisfy the request the allocator
installs a brand-new block as the chain head (linked to the old head) and
returns whatever the retry on the fresh block returns — the chain grows by
one node even when the retry also fails, so a caller-visible failure on
this path is not state-preserving. -/
theorem c10_growth_on_head_failure (a : TaggedArena) (tag size align addr : Nat)
    (node : BlockNode)
    (hsize : size ≤ BLOCK_SIZE) (htag : tag ≠ ArenaTagCOUNT)
    (hget : a.blocks.get? tag = some addr)
    (hnode : hlookup a.heap addr = some node)
    (hfail : (node.block.alloc size align).1 = none) :
    a.alloc tag size align =
      some ((ArenaBlock.new.alloc size align).1,
        { heap := (a.nextAddr, ⟨(ArenaBlock.new.alloc size align).2, some addr⟩)
            :: a.heap,
          nextAddr := a.nextAddr + 1,
          blocks := a.blocks.set tag a.nextAddr }) ∧
    (a.blocks.set tag a.nextAddr).get? tag = some a.nextAddr ∧
    hlookup ((a.nextAddr, ⟨(ArenaBlock.new.alloc size align).2, some addr⟩)
        :: a.heap) a.nextAddr =
      some ⟨(ArenaBlock.new.alloc size align).2, some addr⟩ := by
  refine ⟨?_, ?_, ?_⟩
  · rcases hres : node.block.alloc size align with ⟨res, blk⟩
    have hres1 : res = none := by rw [hres] at hfail; simpa using hfail
    subst hres1
    unfold TaggedArena.alloc
    rw [if_neg (by push_neg; exact ⟨by omega, htag⟩)]
    simp only [hget, hnode, hres]
  · exact get?_set_self a.blocks tag a.nextAddr (get?_some_lt a.blocks tag addr hget)
  · simp [hlookup]

/-- Claim C10 witness: on the fresh arena, a request of BLOCK_SIZE bytes at
alignment 1 under SHARED fails on the seeded head block, fails again on the
fresh block (size + alignment exceeds BLOCK_SIZE), yet the chain has grown
by one node. -/
theorem c10_growth_on_head_failure_witness :
    (TaggedArena.init.alloc 0 BLOCK_SIZE 1 =
      some ((ArenaBlock.new.alloc BLOCK_SIZE 1).1,
        { heap := (TaggedArena.init.nextAddr,
              ⟨(ArenaBlock.new.alloc BLOCK_SIZE 1).2, some 0⟩) :: TaggedArena.init.heap,
          nextAddr := TaggedArena.init.nextAddr + 1,
          blocks := TaggedArena.init.blocks.set 0 TaggedArena.init.nextAddr })) ∧
    (ArenaBlock.new.alloc BLOCK_SIZE 1).1 = none :=
  ⟨(c10_growth_on_head_failure TaggedArena.init 0 BLOCK_SIZE 1 0 ⟨ArenaBlock.new, none⟩
      (Nat.le_refl BLOCK_SIZE) (by decide) (by decide) (by decide) (by decide)).1,
    by decide⟩

/-- Claim C6 (counterexample): offsets are not monotone (in particular not
strictly increasing) across successful allocations, because the offset
increments use size_t arithmetic: on a fresh block, a successful request
(size 1, alignment 4) moves the offset to 5, and then the successful
request (size 2^64 - 5, alignment 2) wraps the offset from 5 back down
to 2 while returning pointer index 7. -/
theorem c6_overflow_counterexample :
    ArenaBlock.new.alloc 1 4 = (some 4, ⟨5⟩) ∧
    ArenaBlock.alloc ⟨5⟩ (2 ^ 64 - 5) 2 = (some 7, ⟨2⟩) ∧
    runAllocs ArenaBlock.new [(1, 4), (2 ^ 64 - 5, 2)] =
      some ([(4, 1), (7, 2 ^ 64 - 5)], ⟨2⟩) := by decide

/-- Claim C6 (amended): for any run of successful allocations on one block
starting within capacity, provided no request can overflow size_t
(size + alignment + BLOCK_SIZE < 2^64 for each), the offset advances by
exactly alignment + size per call — hence it is monotonically
non-decreasing over the run, and strictly increasing when every request
has alignment + size > 0 — it stays within capacity, each returned byte
range [pointer, pointer + size) lies between the pre-run and post-run
offsets, and the ranges of distinct allocations are ordered and pairwise
disjoint. -/
theorem c6_bump_monotone_disjoint :
    ∀ (reqs : List (Nat × Nat)) (b : ArenaBlock) (ps : List (Nat × Nat)) (bf : ArenaBlock),
    runAllocs b reqs = some (ps, bf) →
    b.offset ≤ BLOCK_SIZE →
    (∀ r ∈ reqs, r.1 + r.2 + BLOCK_SIZE < W) →
    bf.offset = b.offset + (reqs.map (fun r => r.1 + r.2)).sum ∧
    bf.offset ≤ BLOCK_SIZE ∧
    (∀ p ∈ ps, b.offset ≤ p.1 ∧ p.1 + p.2 ≤ bf.offset) ∧
    List.Pairwise (fun p q => p.1 + p.2 ≤ q.1) ps ∧
    List.Pairwise disjointRange ps ∧
    (reqs ≠ [] → (∀ r ∈ reqs, 0 < r.1 + r.2) → b.offset < bf.offset) := by
  intro reqs
  induction reqs with
  | nil =>
    intro b ps bf hrun hb hov
    unfold runAllocs at hrun
    simp only [Option.some.injEq, Prod.mk.injEq] at hrun
    obtain ⟨hps, hbf⟩ := hrun
    subst hps
    subst hbf
    refine ⟨by simp, hb, by simp, by simp, by simp, by intro h; exact absurd rfl h⟩
  | cons r rest ih =>
    intro b ps bf hrun hb hov
    rcases hstep : b.alloc r.1 r.2 with ⟨res, b'⟩
    cases res with
    | none =>
      unfold runAllocs at hrun
      simp only [hstep] at hrun
      exact Option.noConfusion hrun
    | some ptr =>
      unfold runAllocs at hrun
      rcases hrest : runAllocs b' rest with _ | ⟨ps', bf'⟩
      · simp only [hstep, hrest] at hrun
        exact Option.noConfusion hrun
      · simp only [hstep, hrest, Option.some.injEq, Prod.mk.injEq] at hrun
        obtain ⟨hps, hbf⟩ := hrun
        subst hbf
        have hovr : r.1 + r.2 + BLOCK_SIZE < W := hov r (List.mem_cons_self r rest)
        obtain ⟨hptr, hoff, hle⟩ := alloc_success_inv b r.1 r.2 ptr b' hb hovr hstep
        have hovrest : ∀ q ∈ rest, q.1 + q.2 + BLOCK_SIZE < W :=
          fun q hq => hov q (List.mem_cons_of_mem r hq)
        obtain ⟨ihsum, ihle, ihcont, ihord, ihdis, ihstrict⟩ :=
          ih b' ps' bf' hrest hle hovrest
        subst hps
        refine ⟨?_, ihle, ?_, ?_, ?_, ?_⟩
        · simp only [List.map_cons, List.sum_cons]
          omega
        · intro p hp
          rcases List.mem_cons.mp hp with hq | hq
          · subst hq
            refine ⟨?_, ?_⟩ <;> simp only [Prod.fst, Prod.snd] <;> omega
          · obtain ⟨h1, h2⟩ := ihcont p hq
            exact ⟨by omega, h2⟩
        · refine List.Pairwise.cons ?_ ihord
          intro q hq
          obtain ⟨h1, h2⟩ := ihcont q hq
          simp only [Prod.fst, Prod.snd]
          omega
        · refine List.Pairwise.cons ?_ ihdis
          intro q hq
          obtain ⟨h1, h2⟩ := ihcont q hq
          refine Or.inl ?_
          simp only [Prod.fst, Prod.snd]
          omega
        · intro hne hpos
          have h1 : 0 < r.1 + r.2 := hpos r (List.mem_cons_self r rest)
          omega

/-- Claim C6 witness: on a fresh block, the successful run of requests
(size 1, alignment 1) then (size 2, alignment 4) yields pointers 1 and 6,
final offset 8, and the stated monotonicity and disjointness facts. -/
theorem c6_bump_monotone_disjoint_witness :
    (⟨8⟩ : ArenaBlock).offset =
        ArenaBlock.new.offset +
          (([(1, 1), (2, 4)] : List (Nat × Nat)).map (fun r => r.1 + r.2)).sum ∧
    (⟨8⟩ : ArenaBlock).offset ≤ BLOCK_SIZE ∧
    (∀ p ∈ ([(1, 1), (6, 2)] : List (Nat × Nat)),
      ArenaBlock.new.offset ≤ p.1 ∧ p.1 + p.2 ≤ (⟨8⟩ : ArenaBlock).offset) ∧
    List.Pairwise (fun p q => p.1 + p.2 ≤ q.1) ([(1, 1), (6, 2)] : List (Nat × Nat)) ∧
    List.Pairwise disjointRange ([(1, 1), (6, 2)] : List (Nat × Nat)) ∧
    (([(1, 1), (2, 4)] : List (Nat × Nat)) ≠ [] →
      (∀ r ∈ ([(1, 1), (2, 4)] : List (Nat × Nat)), 0 < r.1 + r.2) →
      ArenaBlock.new.offset < (⟨8⟩ : ArenaBlock).offset) :=
  c6_bump_monotone_disjoint [(1, 1), (2, 4)] ArenaBlock.new [(1, 1), (6, 2)] ⟨8⟩
    (by decide) (by decide) (by decide)
